import Mathlib

/-!
Verification development for the strix repository.

The repository has two source files:
* `src/strix/runtime/remote_tool_server/update_secret.py` — fetches a GitHub
  Actions public key, seals a secret value under it, and submits the sealed
  value with a PUT; plus a command-line entry point `main`.
* `src/tests/test_discord_bot_fixes.py` — defines and tests the pure URL
  helper `get_chat_completions_url`.

The Python code is embedded shallowly: strings are `String` (or `List Char`
for the URL helper, where the proofs are by structural induction), the
network and the cryptographic library are explicit inputs collected in an
environment record, and every observable effect of `update_secret` (its
boolean result, whether the PUT was issued, the submitted payload, and the
diagnostic messages it prints) is returned in an outcome record.
-/

set_option linter.unusedVariables false

namespace Strix

/-! ## URL normalizer, from `src/tests/test_discord_bot_fixes.py`

`get_chat_completions_url(base_endpoint)` does:
```
base = base_endpoint.rstrip('/')
if base.endswith('/chat/completions'): return base
if base.endswith('/v1'): return f"{base}/chat/completions"
return f"{base}/v1/chat/completions"
```
Strings are modelled as `List Char`. Python's `str.rstrip('/')` removes
*all* trailing `'/'` characters, which `rstrip_slash` mirrors via
reverse/dropWhile. `endswith` is `List.isSuffixOf`. -/

/-- The literal `'/chat/completions'` used by the helper. -/
def chatCompletionsSuffix : List Char := "/chat/completions".data

/-- The literal `'/v1'` used by the helper. -/
def v1Suffix : List Char := "/v1".data

/-- The literal `'/v1/chat/completions'` appended in the default branch. -/
def v1ChatCompletionsSuffix : List Char := "/v1/chat/completions".data

/-- Python `s.rstrip('/')`: remove every trailing `'/'`. -/
def rstrip_slash (s : List Char) : List Char :=
  (s.reverse.dropWhile (fun c => c = '/')).reverse

/-- Embedding of `get_chat_completions_url` from
`src/tests/test_discord_bot_fixes.py` (lines 15–33). -/
def get_chat_completions_url (base_endpoint : List Char) : List Char :=
  let base := rstrip_slash base_endpoint
  if chatCompletionsSuffix.isSuffixOf base then base
  else if v1Suffix.isSuffixOf base then base ++ chatCompletionsSuffix
  else base ++ v1ChatCompletionsSuffix

/-- The algorithm exactly as claim C9 words it: trim *one* trailing slash
(not all of them), then the same three cases. This follows the spec's words,
for comparison against `get_chat_completions_url`, which follows the code. -/
def trim_one_trailing_slash (s : List Char) : List Char :=
  if s.getLast? = some '/' then s.dropLast else s

/-- The C9 claim's normalizer: one trailing slash trimmed, then the three
cases of the spec. -/
def claimed_chat_completions_url (s : List Char) : List Char :=
  let base := trim_one_trailing_slash s
  if chatCompletionsSuffix.isSuffixOf base then base
  else if v1Suffix.isSuffixOf base then base ++ chatCompletionsSuffix
  else base ++ v1ChatCompletionsSuffix

/-- Trim *all* trailing slashes, written by right-recursion on the last
character (the amended wording of C9); proved below to agree with the
code's `rstrip_slash`. -/
def trim_trailing_slashes (s : List Char) : List Char :=
  if h : s.getLast? = some '/' then trim_trailing_slashes s.dropLast else s
termination_by s.length
decreasing_by
  have hne : s ≠ [] := by
    intro hnil
    rw [hnil] at h
    simp at h
  have hlen : 0 < s.length := List.length_pos.mpr hne
  simp [List.length_dropLast]
  omega

/-- The amended C9 normalizer: all trailing slashes trimmed, then the three
cases of the spec. -/
def amended_chat_completions_url (s : List Char) : List Char :=
  let base := trim_trailing_slashes s
  if chatCompletionsSuffix.isSuffixOf base then base
  else if v1Suffix.isSuffixOf base then base ++ chatCompletionsSuffix
  else base ++ v1ChatCompletionsSuffix

lemma rstrip_slash_of_getLast_slash {s : List Char} (h : s.getLast? = some '/') :
    rstrip_slash s = rstrip_slash s.dropLast := by
  have hne : s ≠ [] := by
    intro hnil
    rw [hnil] at h
    simp at h
  have hs : s = s.dropLast ++ [s.getLast hne] := (List.dropLast_append_getLast hne).symm
  have hlast : s.getLast hne = '/' := by
    have := List.getLast?_eq_getLast s hne
    rw [this] at h
    exact Option.some_injective _ h
  rw [rstrip_slash, rstrip_slash]
  conv_lhs => rw [hs]
  rw [List.reverse_append, hlast]
  simp [List.dropWhile_cons]

lemma rstrip_slash_of_getLast_ne_slash {s : List Char}
    (h : ¬ s.getLast? = some '/') : rstrip_slash s = s := by
  rcases hs : s.reverse with _ | ⟨c, t⟩
  · have : s = [] := by simpa using congrArg List.reverse hs
    simp [rstrip_slash, this]
  · have hhead : s.getLast? = some c := by
      rw [List.getLast?_eq_head?_reverse, hs]
      rfl
    have hc : ¬ (c = '/') := by
      intro hc
      exact h (by rw [hhead, hc])
    rw [rstrip_slash, hs, List.dropWhile_cons, if_neg (by simp [hc]), ← hs,
      List.reverse_reverse]

lemma trim_trailing_slashes_eq_rstrip_slash (s : List Char) :
    trim_trailing_slashes s = rstrip_slash s := by
  by_cases h : s.getLast? = some '/'
  · rw [trim_trailing_slashes, dif_pos h, rstrip_slash_of_getLast_slash h]
    exact trim_trailing_slashes_eq_rstrip_slash s.dropLast
  · rw [trim_trailing_slashes, dif_neg h, rstrip_slash_of_getLast_ne_slash h]
termination_by s.length
decreasing_by
  have hne : s ≠ [] := by
    intro hnil
    rw [hnil] at h
    simp at h
  have hlen : 0 < s.length := List.length_pos.mpr hne
  simp [List.length_dropLast]
  omega

lemma cc_isSuffixOf_result (s : List Char) :
    chatCompletionsSuffix.isSuffixOf (get_chat_completions_url s) = true := by
  rw [get_chat_completions_url]
  by_cases h1 : chatCompletionsSuffix.isSuffixOf (rstrip_slash s)
  · simp [h1]
  · by_cases h2 : v1Suffix.isSuffixOf (rstrip_slash s)
    · simp only [h1, h2]
      simp only [Bool.false_eq_true, if_false, if_true]
      rw [List.isSuffixOf_iff_suffix]
      exact List.suffix_append _ _
    · simp only [h1, h2]
      simp only [Bool.false_eq_true, if_false]
      rw [List.isSuffixOf_iff_suffix]
      have hsplit : v1ChatCompletionsSuffix = v1Suffix ++ chatCompletionsSuffix := by decide
      rw [hsplit, ← List.append_assoc]
      exact List.suffix_append _ _

lemma result_getLast (s : List Char) :
    (get_chat_completions_url s).getLast? = some 's' := by
  have h1 := cc_isSuffixOf_result s
  rw [List.isSuffixOf_iff_suffix] at h1
  obtain ⟨t, ht⟩ := h1
  rw [← ht, List.getLast?_append_of_ne_nil t (by decide)]
  decide

lemma get_chat_fixed_point (r : List Char)
    (h1 : chatCompletionsSuffix.isSuffixOf r = true)
    (h2 : r.getLast? = some 's') : get_chat_completions_url r = r := by
  have h3 : rstrip_slash r = r := by
    apply rstrip_slash_of_getLast_ne_slash
    rw [h2]
    decide
  rw [get_chat_completions_url]
  simp [h3, h1]

/-- Claim C10: the URL normalizer is idempotent — applying
`get_chat_completions_url` to its own output returns that output
unchanged. -/
theorem get_chat_completions_url_idempotent (s : List Char) :
    get_chat_completions_url (get_chat_completions_url s) =
      get_chat_completions_url s :=
  get_chat_fixed_point (get_chat_completions_url s)
    (cc_isSuffixOf_result s) (result_getLast s)

/-- Claim C9, counterexample: the claim says the normalizer trims *one*
trailing slash; the code's `rstrip('/')` trims them all, and on the input
`'a/v1//'` the two algorithms produce different URLs. -/
theorem get_chat_completions_url_trims_all_slashes :
    get_chat_completions_url "a/v1//".data ≠
      claimed_chat_completions_url "a/v1//".data := by decide

/-- Claim C9, amended: the normalizer trims *all* trailing slashes, then
returns the trimmed string if it already ends in `/chat/completions`,
appends `/chat/completions` if it ends in `/v1`, and appends
`/v1/chat/completions` otherwise. -/
theorem get_chat_completions_url_amended_spec (s : List Char) :
    get_chat_completions_url s = amended_chat_completions_url s := by
  rw [get_chat_completions_url, amended_chat_completions_url,
    trim_trailing_slashes_eq_rstrip_slash]

/-! ## Secret updater, from `src/strix/runtime/remote_tool_server/update_secret.py`

`update_secret(server_token, owner, repo, secret_name, secret_value)`:
1. `GET .../actions/secrets/public-key`; a non-200 status prints a failure
   message and returns `False`; a raised `RequestException` is caught by the
   outer handler (prints a request-error message, returns `False`).
2. Reads `key_id` and `key` from the JSON body; a missing field raises
   `KeyError`, caught by the outer handler (prints a missing-key message,
   returns `False`).
3. Tries `from nacl.public import PublicKey, SealedBox` and seals
   `secret_value`; on `ImportError` it prints a warning and **falls back to
   `final_encrypted_value = secret_value`**, continuing the flow.
4. `PUT .../actions/secrets/{secret_name}` with
   `{encrypted_value, key_id}`; returns `True` iff the status is 201 or 204,
   otherwise prints the status and body (plus a permissions hint) and
   returns `False`; a raised `RequestException` again yields `False`.

The network and the availability of PyNaCl are inputs (`Env`); the result
records the boolean return value, whether the PUT was issued, the payload
it carried, and the printed diagnostics in order. -/

/-- JSON body of the public-key response; each field is `none` when the key
is absent (a Python `KeyError` on access). -/
structure PubKeyBody where
  key_id : Option String
  key : Option String
deriving DecidableEq

/-- Outcome of `requests.get` on the public-key URL: an HTTP response
(status, parsed body, raw text) or a raised `RequestException`. -/
inductive GetOutcome where
  | response (status : Nat) (body : PubKeyBody) (text : String)
  | requestException (message : String)
deriving DecidableEq

/-- Outcome of `requests.put` on the secret URL. -/
inductive PutOutcome where
  | response (status : Nat) (text : String)
  | requestException (message : String)
deriving DecidableEq

/-- The external world as `update_secret` observes it: the two network
calls, whether PyNaCl imports, and the base64 ciphertext the sealed box
would produce when it does. -/
structure Env where
  get_public_key : GetOutcome
  nacl_available : Bool
  sealed_value : String
  put_secret : PutOutcome
deriving DecidableEq

/-- The diagnostic messages `update_secret` prints, one constructor per
`print` call site, carrying the data interpolated into the message. -/
inductive Diag where
  | failedToGetPublicKey (status : Nat) (text : String)
  | pyNaClNotAvailable
  | secretUpdatedSuccessfully (secret_name : String)
  | failedToUpdateSecret (status : Nat) (text : String)
  | tokenPermissionsHint
  | requestError (message : String)
  | missingKeyInResponse (key : String)
deriving DecidableEq

/-- The JSON body of the PUT: `{encrypted_value, key_id}`. -/
structure Payload where
  encrypted_value : String
  key_id : String
deriving DecidableEq

/-- Everything observable about one `update_secret` call: the returned
boolean, whether the PUT was issued, the payload it carried (`none` when no
PUT happened), and the printed diagnostics in order. -/
structure UpdateOutcome where
  result : Bool
  put_issued : Bool
  put_payload : Option Payload
  messages : List Diag
deriving DecidableEq

/-- Embedding of `update_secret` from
`src/strix/runtime/remote_tool_server/update_secret.py` (lines 55–146). -/
def update_secret (env : Env) (server_token owner repo secret_name
    secret_value : String) : UpdateOutcome :=
  match env.get_public_key with
  | .requestException m =>
      ⟨false, false, none, [.requestError m]⟩
  | .response status body text =>
      if status ≠ 200 then
        ⟨false, false, none, [.failedToGetPublicKey status text]⟩
      else
        match body.key_id with
        | none => ⟨false, false, none, [.missingKeyInResponse "key_id"]⟩
        | some key_id =>
          match body.key with
          | none => ⟨false, false, none, [.missingKeyInResponse "key"]⟩
          | some _public_key =>
            let enc : String × List Diag :=
              if env.nacl_available then (env.sealed_value, [])
              else (secret_value, [Diag.pyNaClNotAvailable])
            let final_encrypted_value := enc.1
            let warnings := enc.2
            let payload : Payload := ⟨final_encrypted_value, key_id⟩
            match env.put_secret with
            | .requestException m =>
                ⟨false, true, some payload, warnings ++ [.requestError m]⟩
            | .response pstatus ptext =>
                if pstatus = 201 ∨ pstatus = 204 then
                  ⟨true, true, some payload,
                    warnings ++ [.secretUpdatedSuccessfully secret_name]⟩
                else
                  ⟨false, true, some payload,
                    warnings ++ [.failedToUpdateSecret pstatus ptext,
                      .tokenPermissionsHint]⟩

/-- Claim C1, evaluated at the failing input: with PyNaCl unavailable
(`ImportError`) and both network calls succeeding, `update_secret` falls
back to `final_encrypted_value = secret_value`, issues the PUT carrying the
original plaintext, and returns `true` — instead of the claimed hard
`EncryptionUnavailable` failure with no PUT and no plaintext transmission. -/
theorem update_secret_fallback_transmits_plaintext :
    update_secret ⟨.response 200 ⟨some "42", some "PUBKEY"⟩ "", false,
        "SEALED", .response 204 ""⟩ "tok" "owner" "repo" "QWEN_TOKENS"
        "rotated-token-xyz" =
      ⟨true, true, some ⟨"rotated-token-xyz", "42"⟩,
        [.pyNaClNotAvailable, .secretUpdatedSuccessfully "QWEN_TOKENS"]⟩ :=
  rfl

/-- Claim C2: when the PUT completes with an HTTP status, `update_secret`
returns `true` iff that status is 201 or 204, and every other status is
reported together with the response body. -/
theorem update_secret_true_iff_put_201_or_204
    (avail : Bool) (kid k raw sealed : String) (p : Nat)
    (t tok own rep nm val : String) :
    ((update_secret ⟨.response 200 ⟨some kid, some k⟩ raw, avail, sealed,
        .response p t⟩ tok own rep nm val).result = true ↔
      (p = 201 ∨ p = 204)) ∧
    (¬ (p = 201 ∨ p = 204) →
      Diag.failedToUpdateSecret p t ∈
        (update_secret ⟨.response 200 ⟨some kid, some k⟩ raw, avail, sealed,
          .response p t⟩ tok own rep nm val).messages) := by
  by_cases hp : p = 201 ∨ p = 204 <;> cases avail <;> simp [update_secret, hp]

/-- Witness for C2 at a concrete failing status (403): the diagnostic
carries the status and body. -/
theorem update_secret_true_iff_put_201_or_204_witness :
    ¬ ((403 : Nat) = 201 ∨ (403 : Nat) = 204) ∧
    Diag.failedToUpdateSecret 403 "forbidden" ∈
      (update_secret ⟨.response 200 ⟨some "42", some "PK"⟩ "", true, "C",
        .response 403 "forbidden"⟩ "t" "o" "r" "n" "v").messages :=
  ⟨by decide,
    (update_secret_true_iff_put_201_or_204 true "42" "PK" "" "C" 403
      "forbidden" "t" "o" "r" "n" "v").2 (by decide)⟩

/-- Claim C3, evaluated at the failing input: for the injected failure
"missing crypto backend" `update_secret` does not return `false` — it
proceeds with the plaintext fallback and returns `true` when the PUT
succeeds. (For the network failures the function is total and returns
`false`, see the C4 and C2 theorems; the crypto-backend case violates the
claim.) -/
theorem update_secret_missing_backend_not_reported_false :
    (update_secret ⟨.response 200 ⟨some "7", some "PK2"⟩ "", false, "C2",
      .response 201 "created"⟩ "t2" "o2" "r2" "n2" "plain.secret").result =
      true :=
  rfl

/-- Claim C4: when the public-key fetch fails — any non-200 status, or a
raised network error — `update_secret` returns `false` and the PUT is
never issued (no payload is ever built). -/
theorem update_secret_key_fetch_failure_short_circuits
    (avail : Bool) (sealed : String) (put : PutOutcome) (s : Nat)
    (b : PubKeyBody) (txt m tok own rep nm val : String) (hs : s ≠ 200) :
    update_secret ⟨.response s b txt, avail, sealed, put⟩ tok own rep nm
        val = ⟨false, false, none, [.failedToGetPublicKey s txt]⟩ ∧
    update_secret ⟨.requestException m, avail, sealed, put⟩ tok own rep nm
        val = ⟨false, false, none, [.requestError m]⟩ := by
  refine ⟨?_, rfl⟩
  simp [update_secret, hs]

/-- Witness for C4 at status 404 and at a connection error. -/
theorem update_secret_key_fetch_failure_short_circuits_witness :
    (404 : Nat) ≠ 200 ∧
    update_secret ⟨.response 404 ⟨none, none⟩ "Not Found", true, "S",
        .response 204 ""⟩ "t" "o" "r" "n" "v" =
      ⟨false, false, none, [.failedToGetPublicKey 404 "Not Found"]⟩ :=
  ⟨by decide,
    (update_secret_key_fetch_failure_short_circuits true "S"
      (.response 204 "") 404 ⟨none, none⟩ "Not Found" "m" "t" "o" "r" "n"
      "v" (by decide)).1⟩

/-- Claim C5: a 200 public-key response whose body lacks `key_id` or `key`
makes `update_secret` return `false` with the missing-key diagnostic (the
code's `except KeyError` classification, the spec's `ProtocolError`), and
no PUT is attempted. -/
theorem update_secret_missing_key_field_no_put
    (avail : Bool) (sealed : String) (put : PutOutcome) (b : PubKeyBody)
    (txt tok own rep nm val : String)
    (hb : b.key_id = none ∨ b.key = none) :
    (update_secret ⟨.response 200 b txt, avail, sealed, put⟩ tok own rep
        nm val).result = false ∧
    (update_secret ⟨.response 200 b txt, avail, sealed, put⟩ tok own rep
        nm val).put_issued = false ∧
    ((update_secret ⟨.response 200 b txt, avail, sealed, put⟩ tok own rep
        nm val).messages = [.missingKeyInResponse "key_id"] ∨
     (update_secret ⟨.response 200 b txt, avail, sealed, put⟩ tok own rep
        nm val).messages = [.missingKeyInResponse "key"]) := by
  obtain ⟨kid, key⟩ := b
  rcases kid with _ | kid
  · simp [update_secret]
  · rcases key with _ | key
    · simp [update_secret]
    · rcases hb with hb | hb <;> simp at hb

/-- Witness for C5 at a body missing `key_id`. -/
theorem update_secret_missing_key_field_no_put_witness :
    ((⟨none, some "K"⟩ : PubKeyBody).key_id = none ∨
      (⟨none, some "K"⟩ : PubKeyBody).key = none) ∧
    ((update_secret ⟨.response 200 ⟨none, some "K"⟩ "", true, "S",
        .response 204 ""⟩ "t" "o" "r" "n" "v").result = false ∧
     (update_secret ⟨.response 200 ⟨none, some "K"⟩ "", true, "S",
        .response 204 ""⟩ "t" "o" "r" "n" "v").put_issued = false ∧
     ((update_secret ⟨.response 200 ⟨none, some "K"⟩ "", true, "S",
        .response 204 ""⟩ "t" "o" "r" "n" "v").messages =
          [.missingKeyInResponse "key_id"] ∨
      (update_secret ⟨.response 200 ⟨none, some "K"⟩ "", true, "S",
        .response 204 ""⟩ "t" "o" "r" "n" "v").messages =
          [.missingKeyInResponse "key"])) :=
  ⟨Or.inl rfl,
    update_secret_missing_key_field_no_put true "S" (.response 204 "")
      ⟨none, some "K"⟩ "" "t" "o" "r" "n" "v" (Or.inl rfl)⟩

/-- Claim C6, counterexample: the code produces no shared `AuthError` kind
for 401 and 403 — its only classification of a key-fetch HTTP failure is
the diagnostic embedding the raw status, so 401 and 403 yield *different*
classifications, refuting the claimed kind grouping. -/
theorem update_secret_401_403_distinct_diagnostics :
    (update_secret ⟨.response 401 ⟨none, none⟩ "err", true, "S",
        .response 204 ""⟩ "t" "o" "r" "n" "v").messages ≠
    (update_secret ⟨.response 403 ⟨none, none⟩ "err", true, "S",
        .response 204 ""⟩ "t" "o" "r" "n" "v").messages := by decide

/-- Claim C6, amended: the key-fetch path reports every non-200 status
through the single failed-to-get-public-key diagnostic carrying the raw
status and body, so any two distinct failing statuses yield distinct
diagnostics, and a raised network error yields a distinct request-error
diagnostic; there is no named kind enumeration grouping 401/403 or 5xx. -/
theorem update_secret_fetch_failures_distinguished_by_status
    (avail : Bool) (sealed : String) (put : PutOutcome) (s1 s2 : Nat)
    (b1 b2 : PubKeyBody) (txt m tok own rep nm val : String)
    (hs1 : s1 ≠ 200) (hs2 : s2 ≠ 200) (hne : s1 ≠ s2) :
    (update_secret ⟨.response s1 b1 txt, avail, sealed, put⟩ tok own rep
        nm val).messages = [.failedToGetPublicKey s1 txt] ∧
    (update_secret ⟨.response s1 b1 txt, avail, sealed, put⟩ tok own rep
        nm val).messages ≠
      (update_secret ⟨.response s2 b2 txt, avail, sealed, put⟩ tok own rep
        nm val).messages ∧
    (update_secret ⟨.response s1 b1 txt, avail, sealed, put⟩ tok own rep
        nm val).messages ≠
      (update_secret ⟨.requestException m, avail, sealed, put⟩ tok own rep
        nm val).messages := by
  refine ⟨by simp [update_secret, hs1], ?_, by simp [update_secret, hs1]⟩
  simp [update_secret, hs1, hs2, hne]

/-- Witness for the amended C6 at statuses 401 and 403 and a timeout. -/
theorem update_secret_fetch_failures_distinguished_by_status_witness :
    (401 : Nat) ≠ 200 ∧ (403 : Nat) ≠ 200 ∧ (401 : Nat) ≠ 403 ∧
    ((update_secret ⟨.response 401 ⟨none, none⟩ "e", true, "S",
        .response 204 ""⟩ "t" "o" "r" "n" "v").messages =
      [.failedToGetPublicKey 401 "e"] ∧
     (update_secret ⟨.response 401 ⟨none, none⟩ "e", true, "S",
        .response 204 ""⟩ "t" "o" "r" "n" "v").messages ≠
      (update_secret ⟨.response 403 ⟨none, none⟩ "e", true, "S",
        .response 204 ""⟩ "t" "o" "r" "n" "v").messages ∧
     (update_secret ⟨.response 401 ⟨none, none⟩ "e", true, "S",
        .response 204 ""⟩ "t" "o" "r" "n" "v").messages ≠
      (update_secret ⟨.requestException "timeout", true, "S",
        .response 204 ""⟩ "t" "o" "r" "n" "v").messages) :=
  ⟨by decide, by decide, by decide,
    update_secret_fetch_failures_distinguished_by_status true "S"
      (.response 204 "") 401 403 ⟨none, none⟩ ⟨none, none⟩ "e" "timeout"
      "t" "o" "r" "n" "v" (by decide) (by decide) (by decide)⟩

/-! ## Sealed-box primitive, modelled from the spec

`update_secret.py` seals with PyNaCl's `SealedBox.encrypt` (libsodium
`crypto_box_seal`), third-party library code that is not part of this
repository's sources; only its caller is under `src/`. The primitive is
therefore modelled from the spec (§4.2 and the glossary): a fresh ephemeral
key pair per call, a symmetric key derived by key agreement with the
recipient's public key, the plaintext encrypted together with an
authentication tag, and the ephemeral public key prepended to the output.
Bytes are `Nat` values reduced mod 256. -/

/-- Modelled from the spec: the fresh, single-use key pair the sealing
primitive generates internally on each call (spec §4.2); a Curve25519
public key is 32 bytes. -/
structure EphemeralKeyPair where
  secret_key : List Nat
  public_key : List Nat
  public_key_length : public_key.length = 32

/-- Modelled from the spec: the key agreement deriving a symmetric key from
the ephemeral secret key and the recipient's public key (an abstract
byte-mixing stand-in for X25519). -/
def derive_shared_key (secret_key recipient_public_key : List Nat) :
    List Nat :=
  secret_key.zipWith (fun a b => (a * 31 + b) % 256) recipient_public_key

/-- Modelled from the spec: the 16-byte authentication tag computed over
the message under the shared key (an abstract stand-in for Poly1305). -/
def auth_tag (shared_key message : List Nat) : List Nat :=
  List.replicate 16 ((shared_key.sum + message.sum) % 256)

/-- Modelled from the spec: the length-preserving stream encryption of the
message under the shared key (an abstract stand-in for XSalsa20). -/
def stream_encrypt (shared_key message : List Nat) : List Nat :=
  (List.range message.length).zipWith
    (fun i b => (b + shared_key.getD (i % 32) 0) % 256) message

/-- Modelled from the spec: `seal(plaintext, publicKey)` — the ephemeral
public key is prepended to the authenticated ciphertext, so the output is
plaintext length plus a fixed overhead (32-byte ephemeral key + 16-byte
tag). -/
def crypto_box_seal (eph : EphemeralKeyPair) (plaintext recipient_public_key :
    List Nat) : List Nat :=
  let shared := derive_shared_key eph.secret_key recipient_public_key
  eph.public_key ++ auth_tag shared plaintext ++
    stream_encrypt shared plaintext

/-- Claim C7: two calls to `seal` on the identical
`(plaintext, publicKey)` pair with fresh (hence distinct) ephemeral keys
produce different ciphertext byte sequences — the ephemeral public key is
prepended, so distinct ephemeral keys force distinct outputs. -/
theorem crypto_box_seal_fresh_ephemeral_keys_differ (e1 e2 : EphemeralKeyPair)
    (plaintext recipient_public_key : List Nat)
    (hne : e1.public_key ≠ e2.public_key) :
    crypto_box_seal e1 plaintext recipient_public_key ≠
      crypto_box_seal e2 plaintext recipient_public_key := by
  intro h
  apply hne
  have h1 : (crypto_box_seal e1 plaintext recipient_public_key).take 32 =
      e1.public_key := by
    rw [crypto_box_seal, List.append_assoc]
    exact List.take_left' e1.public_key_length
  have h2 : (crypto_box_seal e2 plaintext recipient_public_key).take 32 =
      e2.public_key := by
    rw [crypto_box_seal, List.append_assoc]
    exact List.take_left' e2.public_key_length
  rw [← h1, ← h2, h]

/-- Witness for C7: two concrete distinct 32-byte ephemeral keys give
distinct sealed outputs for the same plaintext and recipient key. -/
theorem crypto_box_seal_fresh_ephemeral_keys_differ_witness :
    (⟨[1], List.replicate 32 0, by simp⟩ : EphemeralKeyPair).public_key ≠
      (⟨[2], List.replicate 32 1, by simp⟩ :
        EphemeralKeyPair).public_key ∧
    crypto_box_seal ⟨[1], List.replicate 32 0, by simp⟩ [10, 20, 30] [7] ≠
      crypto_box_seal ⟨[2], List.replicate 32 1, by simp⟩ [10, 20, 30] [7] :=
  ⟨by decide,
    crypto_box_seal_fresh_ephemeral_keys_differ ⟨[1], List.replicate 32 0, by simp⟩
      ⟨[2], List.replicate 32 1, by simp⟩ [10, 20, 30] [7] (by decide)⟩

/-! ## Command-line entry point, from `update_secret.py` `main`

```
if len(sys.argv) != 6: print(usage); sys.exit(1)
... = sys.argv[1..5]
success = update_secret(server_token, owner, repo, secret_name, secret_value)
sys.exit(0 if success else 1)
```
`argv` includes the program name in position 0, so "exactly five positional
values" is `argv.length = 6`. -/

/-- What `main` does to the process: the exit code, and whether the usage
error was printed. -/
structure MainOutcome where
  exit_code : Nat
  usage_error : Bool
deriving DecidableEq

/-- Embedding of `main` from
`src/strix/runtime/remote_tool_server/update_secret.py` (lines 149–162). -/
def main (env : Env) (argv : List String) : MainOutcome :=
  match argv with
  | [_prog, server_token, owner, repo, secret_name, secret_value] =>
      let success := (update_secret env server_token owner repo secret_name
        secret_value).result
      ⟨if success then 0 else 1, false⟩
  | _ => ⟨1, true⟩

/-- Claim C8: `main` requires exactly five positional values (argv length 6
with the program name): any other count reports the usage error and exits
1; with exactly five it forwards them to `update_secret` and exits 0 when
the update returns `true`, 1 when it returns `false`. -/
theorem main_requires_five_args_and_maps_result (env : Env)
    (argv : List String) :
    (argv.length ≠ 6 → main env argv = ⟨1, true⟩) ∧
    (∀ prog tok own rep nm val, argv = [prog, tok, own, rep, nm, val] →
      main env argv =
        ⟨if (update_secret env tok own rep nm val).result then 0 else 1,
          false⟩) := by
  constructor
  · intro h
    rcases argv with _ | ⟨a, _ | ⟨b, _ | ⟨c, _ | ⟨d, _ | ⟨e, _ | ⟨f,
      _ | ⟨g, t⟩⟩⟩⟩⟩⟩⟩ <;> first
      | rfl
      | exact absurd rfl h
  · intro prog tok own rep nm val hargv
    subst hargv
    rfl

/-- Witness for C8: a one-element argv exits 1 with the usage error, and a
six-element argv with a failing environment exits 1 without it. -/
theorem main_requires_five_args_and_maps_result_witness :
    (["prog"] : List String).length ≠ 6 ∧
    main ⟨.requestException "down", true, "S", .requestException "down"⟩
      ["prog"] = ⟨1, true⟩ ∧
    (["prog", "t", "o", "r", "n", "v"] : List String) =
      ["prog", "t", "o", "r", "n", "v"] ∧
    main ⟨.requestException "down", true, "S", .requestException "down"⟩
      ["prog", "t", "o", "r", "n", "v"] =
      ⟨if (update_secret
            ⟨.requestException "down", true, "S", .requestException "down"⟩
            "t" "o" "r" "n" "v").result then 0 else 1, false⟩ :=
  ⟨by decide,
    (main_requires_five_args_and_maps_result
      ⟨.requestException "down", true, "S", .requestException "down"⟩
      ["prog"]).1 (by decide),
    rfl,
    (main_requires_five_args_and_maps_result
      ⟨.requestException "down", true, "S", .requestException "down"⟩
      ["prog", "t", "o", "r", "n", "v"]).2 "prog" "t" "o" "r" "n" "v" rfl⟩

end Strix
